import Mathlib

/-!
Shallow embedding of the retrieval / confidence / escalation pipeline of
src/app.py (SberBank client-support agent), together with theorems settling
the frozen claims about it.

Modelling conventions:
* Python floats are modelled as exact rationals (all constants of the
  source are decimal literals, which ℚ represents exactly).
* Python strings are Lean strings; slicing s[:n] is code-point based in
  both languages, so it is modelled by taking the first n characters.
* str.lower / str.upper are modelled for the alphabets that occur in the
  repository (ASCII and Cyrillic); regex character class w likewise.
* Calls to external collaborators (the vector index and the language
  model) are parameters of the embedded functions: an Option value models
  the try/except around each LLM call (none = the call raised), and the
  index is a function from query to scored documents (a per-query search
  failure is observationally the empty result list, as the except branch
  only logs).  The URL-extraction regex of extract_urls_from_text is
  likewise passed as a parameter; every theorem below holds for every
  choice of that parameter.
* Python hash(content[:200]) used as the deduplication key is modelled by
  the 200-character prefix itself; hash equality is modelled as prefix
  equality (the spec treats prefix collisions as the intended fingerprint
  semantics).
* The confidence-details dict is modelled by the record of its numeric
  factor entries; wall-clock timestamps and text previews stored next to
  them are observability-only and carry no decision content.
-/

set_option maxRecDepth 65536

/-
The rational operations of the prelude are shielded from definitional
unfolding by default; concrete runs of the pipeline are evaluated inside
proofs, so restore ordinary unfolding for them in this file.
-/
attribute [local semireducible] Rat.add Rat.mul Rat.sub Rat.inv Rat.ofScientific

/-! ## Character and string utilities -/

/-- Python whitespace class (the characters stripped by str.strip and
matched by the regex class s). -/
def isWs (c : Char) : Bool :=
  c = (' ') || c = ('\t') || c = ('\n') || c = ('\r') ||
  c.toNat = 11 || c.toNat = 12

/-- str.lower for the alphabets used in the repository:
ASCII A-Z and Cyrillic А-Я, Ё. -/
def pyLowerChar (c : Char) : Char :=
  if ('A') ≤ c ∧ c ≤ ('Z') then Char.ofNat (c.toNat + 32)
  else if 0x410 ≤ c.toNat ∧ c.toNat ≤ 0x42F then Char.ofNat (c.toNat + 0x20)
  else if c.toNat = 0x401 then Char.ofNat 0x451
  else c

/-- str.upper for the alphabets used in the repository. -/
def pyUpperChar (c : Char) : Char :=
  if ('a') ≤ c ∧ c ≤ ('z') then Char.ofNat (c.toNat - 32)
  else if 0x430 ≤ c.toNat ∧ c.toNat ≤ 0x44F then Char.ofNat (c.toNat - 0x20)
  else if c.toNat = 0x451 then Char.ofNat 0x401
  else c

def pyLower (s : String) : String := ⟨s.data.map pyLowerChar⟩

def pyUpper (s : String) : String := ⟨s.data.map pyUpperChar⟩

/-- str.strip(): drop whitespace from both ends. -/
def pyStrip (s : String) : String :=
  ⟨((s.data.dropWhile isWs).reverse.dropWhile isWs).reverse⟩

/-- s[:n] (code-point slicing, as in Python). -/
def strTake (s : String) (n : Nat) : String := ⟨s.data.take n⟩

/-- Boolean list-prefix test on characters. -/
def isPrefixB : List Char → List Char → Bool
  | [], _ => true
  | _ :: _, [] => false
  | a :: as, b :: bs => a = b && isPrefixB as bs

/-- Boolean substring test on character lists (needle occurs in hay). -/
def isInfixB (needle : List Char) : List Char → Bool
  | [] => isPrefixB needle []
  | l@(_ :: t) => isPrefixB needle l || isInfixB needle t

/-- Python `needle in hay` on strings. -/
def containsSub (hay needle : String) : Bool := isInfixB needle.data hay.data

/-- Consume an exact character-list prefix, returning the remainder. -/
def dropPref : List Char → List Char → Option (List Char)
  | hay, [] => some hay
  | [], _ :: _ => none
  | h :: hs, n :: ns => if h = n then dropPref hs ns else none

/-- re.search: does the predicate hold at some suffix position? -/
def scanPos (p : List Char → Bool) : List Char → Bool
  | [] => p []
  | l@(_ :: t) => p l || scanPos p t

/-- Maximal runs of characters satisfying p (the matches of a regex class
with a + quantifier, or, with word boundaries, the words of the text). -/
def runsOf (p : Char → Bool) : List Char → List (List Char)
  | [] => []
  | c :: t =>
    if p c then
      match runsOf p t, t with
      | r :: rs, d :: _ => if p d then (c :: r) :: rs else [c] :: r :: rs
      | r :: rs, [] => (c :: r) :: rs
      | [], _ => [[c]]
    else runsOf p t

/-- Order-preserving first-occurrence deduplication
(Python list(dict.fromkeys(xs))); seen accumulates emitted keys. -/
def dedupFirstAux (seen : List String) : List String → List String
  | [] => []
  | x :: xs =>
    if x ∈ seen then dedupFirstAux seen xs
    else x :: dedupFirstAux (x :: seen) xs

def dedupFirst (l : List String) : List String := dedupFirstAux [] l

/-- Split on the newline character (Python split with an explicit
separator: preserves empty pieces). -/
def splitNl : List Char → List (List Char)
  | [] => [[]]
  | c :: t =>
    if c = ('\n') then [] :: splitNl t
    else
      match splitNl t with
      | h :: r => (c :: h) :: r
      | [] => [[c]]

/-- Regex word character, restricted to the alphabets of the repository:
ASCII alphanumerics, underscore, Cyrillic letters. -/
def isWordChar (c : Char) : Bool :=
  c.isAlphanum || c = ('_') ||
  (0x410 ≤ c.toNat && c.toNat ≤ 0x44F) || c.toNat = 0x451 || c.toNat = 0x401

/-- The character class of extract_core_terms: lowercase latin, Cyrillic
а-яё, digits (the text is lowered before matching). -/
def isCoreChar (c : Char) : Bool :=
  (('a') ≤ c && c ≤ ('z')) || c.isDigit ||
  (0x430 ≤ c.toNat && c.toNat ≤ 0x44F) || c.toNat = 0x451

/-- findall of word runs of length at least 3 (regex b w{3,} b), as a
deduplicated list standing for the Python set. -/
def words3 (s : String) : List String :=
  dedupFirst (((runsOf isWordChar s.data).filter (fun r => 3 ≤ r.length)).map
    (fun r => (⟨r⟩ : String)))

/-- Fixed-point percent formatting f-string spec .1 percent
(only applied to nonnegative exact multiples of 0.001 in this pipeline). -/
def fmtPct1 (x : ℚ) : String :=
  let m := (round (x * 1000) : ℤ).toNat
  Nat.repr (m / 10) ++ (".") ++ Nat.repr (m % 10) ++ ("%")

/-- Percent formatting f-string spec .0 percent. -/
def fmtPct0 (x : ℚ) : String :=
  Nat.repr ((round (x * 100) : ℤ)).toNat ++ ("%")

/-! ## Constants of src/app.py -/

/-- src/app.py line 26. -/
def CONFIDENCE_THRESHOLD : ℚ := 0.4

/-- src/app.py lines 55-60. -/
def STOP_WORDS : List String :=
  ["что", "как", "какие", "для", "чего", "это", "про", "о",
   "и", "или", "а", "в", "на", "по", "из", "ли", "же", "не",
   "но", "за", "у", "от", "до", "без", "под", "над", "при",
   "к", "с", "со", "во", "об", "то", "так", "вот", "тут"]

/-- src/app.py lines 85-92. -/
def HIGH_PRIORITY_TERMS : List String :=
  ["деньги", "счет", "карта", "перевод", "платеж", "списание", "мошенничество",
   "взлом", "кража", "блокировка", "заблокирован", "недоступен", "ошибка перевода",
   "потерял", "украли", "несанкционированный", "арест", "арестован", "конфискация",
   "арест счета", "заморожен", "срочно", "экстренно", "критично", "угроза",
   "безопасность", "пароль", "вход", "взломали", "фишинг", "обман", "сняли",
   "пропали", "исчезли", "украден", "украдена", "заблокирована"]

/-- src/app.py lines 94-101. -/
def MEDIUM_PRIORITY_TERMS : List String :=
  ["не работает", "ошибка", "сбой", "технические проблемы", "не заходит",
   "приложение", "онлайн", "интернет-банк", "мобильное приложение", "сайт",
   "доступ", "авторизация", "вход", "логин", "пароль", "восстановление",
   "забыл", "утеря", "смена", "номер телефона", "email", "контакты",
   "настройки", "операция", "транзакция", "отказ", "отклонено", "не проходит",
   "не открывается", "зависает", "тормозит", "глючит", "баг"]

/-- src/app.py lines 62-83 (insertion order preserved: the first matching
key wins during iteration). -/
def SBER_SITE_SECTIONS : List (String × String) :=
  [("карта", "https://www.sberbank.ru/ru/person/bank_cards"),
   ("вклад", "https://www.sberbank.ru/ru/person/contributions"),
   ("кредит", "https://www.sberbank.ru/ru/person/credits"),
   ("иис", "https://www.sberbank.ru/ru/person/investments/iis"),
   ("инвестиции", "https://www.sberbank.ru/ru/person/investments"),
   ("ипотека", "https://www.sberbank.ru/ru/person/credits/mortgage"),
   ("перевод", "https://www.sberbank.ru/ru/person/transfer"),
   ("платеж", "https://www.sberbank.ru/ru/person/payments"),
   ("онлайн", "https://www.sberbank.ru/ru/person/sberbankonline"),
   ("приложение", "https://www.sberbank.ru/ru/person/sberbankonline/mobileapp"),
   ("восстановление", "https://www.sberbank.ru/ru/person/sberbankonline/restore"),
   ("безопасность", "https://www.sberbank.ru/ru/person/security"),
   ("мошенничество", "https://www.sberbank.ru/ru/person/security/fraud"),
   ("отделение", "https://www.sberbank.ru/ru/person/branch"),
   ("банкомат", "https://www.sberbank.ru/ru/person/atm"),
   ("тариф", "https://www.sberbank.ru/ru/person/tariffs"),
   ("комиссия", "https://www.sberbank.ru/ru/person/tariffs"),
   ("faq", "https://www.sberbank.ru/ru/person/faq"),
   ("поддержка", "https://www.sberbank.ru/ru/person/help"),
   ("контакты", "https://www.sberbank.ru/ru/person/contacts")]

/-- src/app.py lines 205-210 (analyze_answer_quality negative phrases). -/
def negative_phrases : List String :=
  ["информации нет", "не знаю", "не могу ответить",
   "нет данных", "не найдено", "неизвестно",
   "к сожалению, я не могу", "не удалось найти",
   "извините, но", "я не нашел"]

/-- src/app.py lines 710-714 (detect_priority critical phrases). -/
def critical_phrases : List String :=
  ["украли", "потерял", "мошенничество", "взлом", "кража",
   "списали", "несанкционирован", "пропали деньги", "украден",
   "заблокирова", "арест", "конфискация"]

/-- src/app.py lines 745-748 (judge_answer not-helpful phrases). -/
def not_helpful_phrases : List String :=
  ["информации нет", "не знаю", "не могу ответить",
   "нет данных", "не найдено информации"]

/-- src/app.py lines 424-425 (context-alignment instructional words). -/
def instruction_words : List String :=
  ["шаг", "действие", "необходимо", "нужно", "требуется",
   "можно", "следует", "рекомендуется", "советуем"]

/-! ## Term extraction and relevance support (src/app.py lines 103-162) -/

/-- extract_core_terms (lines 103-106): key terms of a text, as a
deduplicated list standing for the Python set. -/
def extract_core_terms (text : String) : List String :=
  dedupFirst ((((runsOf isCoreChar (pyLower text).data).map
      (fun r => (⟨r⟩ : String))).filter
    (fun w => 3 ≤ w.length && ! (w ∈ STOP_WORDS))))

/-- context_supports_question (lines 153-162): the context contains at
least min_matches of the question terms (empty term set gates to pass). -/
def context_supports_question (context question : String) (min_matches : Nat) : Bool :=
  let context_lower := pyLower context
  let terms := extract_core_terms question
  if terms.isEmpty then true
  else min_matches ≤ (terms.filter (fun t => containsSub context_lower t)).length

/-- get_relevancy_interpretation (lines 164-177). -/
def get_relevancy_interpretation (score : ℚ) : String :=
  if 0.9 ≤ score then "Очень высокая релевантность"
  else if 0.8 ≤ score then "Высокая релевантность"
  else if 0.7 ≤ score then "Хорошая релевантность"
  else if 0.6 ≤ score then "Средняя релевантность"
  else if 0.5 ≤ score then "Умеренная релевантность"
  else "Низкая релевантность"

/-! ## Answer-quality analysis (src/app.py lines 179-258) -/

/-- Regex d+ . s : a digit immediately followed by a dot and whitespace
occurs in the text (a longer digit run before the dot matches iff its
last digit does). -/
def hasNumberedItem (l : List Char) : Bool :=
  scanPos (fun s =>
    match s with
    | a :: b :: c :: _ => a.isDigit && b = ('.') && isWs c
    | _ => false) l

/-- Regex [-•*] s : a bullet marker followed by whitespace. -/
def hasBulletItem (l : List Char) : Bool :=
  scanPos (fun s =>
    match s with
    | a :: b :: _ => (a = ('-') || a = ('•') || a = ('*')) && isWs b
    | _ => false) l

/-- Regex [Пп]ервый|[Вв]торой|[Тт]ретий : an ordinal word occurs. -/
def hasOrdinalWord (s : String) : Bool :=
  ["Первый", "первый", "Второй", "второй", "Третий", "третий"].any
    (fun w => containsSub s w)

/-- Regex d+ : some digit occurs. -/
def hasDigit (s : String) : Bool := s.data.any Char.isDigit

/-- The factor record built by analyze_answer_quality. -/
structure QualityScores where
  length_score : ℚ
  negative_score : ℚ
  has_negative : Bool
  structure_score : ℚ
  specificity_score : ℚ
  total_score : ℚ
deriving DecidableEq

/-- analyze_answer_quality (lines 179-258): length band, absence of
refusal phrases (dominant weight 0.5), structural markers, specificity;
total is the weighted sum. -/
def analyze_answer_quality (answer question : String) : QualityScores :=
  let answer_lower := pyLower answer
  let la : ℚ := answer.length
  let length_raw : ℚ :=
    if answer.length < 30 then la / 30
    else if 500 < answer.length then 1
    else 0.7 + (la - 30) / (500 - 30) * 0.3
  let length_score := max 0.3 (min 1 length_raw)
  let has_negative := negative_phrases.any (fun p => containsSub answer_lower p)
  let negative_score : ℚ := if has_negative then 0 else 1
  let structure_matches : Nat :=
    (if hasNumberedItem answer.data then 1 else 0) +
    (if hasBulletItem answer.data then 1 else 0) +
    (if hasOrdinalWord answer then 1 else 0)
  let structure_score := min ((structure_matches : ℚ) / 2) 1
  let specificity_score : ℚ :=
    if hasDigit answer then 0.8
    else if ["сбербанк", "карта", "счет", "пароль"].any
        (fun w => containsSub answer_lower w) then 0.7
    else 0.5
  let total_score :=
    length_score * 0.15 + negative_score * 0.50 +
    structure_score * 0.20 + specificity_score * 0.15
  { length_score := length_score, negative_score := negative_score,
    has_negative := has_negative, structure_score := structure_score,
    specificity_score := specificity_score, total_score := total_score }

/-! ## Context alignment and instruction detection (lines 392-456) -/

/-- Regex word s : the word followed by at least one whitespace char. -/
def hasWordThenWs (l : List Char) (w : String) : Bool :=
  scanPos (fun s =>
    match dropPref s w.data with
    | some (c :: _) => isWs c
    | _ => false) l

/-- Regex шаг s+ d : the word шаг, whitespace, then a digit. -/
def hasStepNumber (l : List Char) : Bool :=
  scanPos (fun s =>
    match dropPref s ("шаг").data with
    | some rest =>
      (match rest with
       | c :: _ => isWs c
       | [] => false) &&
      (match rest.dropWhile isWs with
       | d :: _ => d.isDigit
       | [] => false)
    | none => false) l

/-- calculate_context_alignment (lines 392-440): fraction of answer terms
found among the first 2000 characters of the context, with additive
bonuses, clamped to [0.4, 1]. -/
def calculate_context_alignment (answer context : String) : ℚ :=
  if answer = ("") ∨ context = ("") then 0.5
  else
    let answer_lower := pyLower answer
    let context_lower := pyLower context
    let answer_terms := (words3 answer_lower).filter (fun w => ! (w ∈ STOP_WORDS))
    if answer_terms.isEmpty then 0.5
    else
      let context_terms := (words3 (strTake context_lower 2000)).filter
        (fun w => ! (w ∈ STOP_WORDS))
      let nMatches : ℚ := ((answer_terms.filter (fun w => w ∈ context_terms)).length : ℚ)
      let alignment := nMatches / (answer_terms.length : ℚ)
      let bonuses : ℚ :=
        (if instruction_words.any (fun w => containsSub answer_lower w) then 0.15 else 0) +
        (if hasDigit answer then 0.10 else 0) +
        (if containsSub answer_lower ("sberbank.ru") ||
            containsSub answer_lower ("https://") then 0.10 else 0)
      min (max (min (alignment + bonuses) 1) 0.4) 1

/-- has_concrete_instructions (lines 443-456): presence of step-by-step
instruction markers in the lowered answer. -/
def has_concrete_instructions (answer : String) : Bool :=
  let al := (pyLower answer).data
  hasNumberedItem al || hasBulletItem al || hasStepNumber al ||
  hasWordThenWs al ("сначала") || hasWordThenWs al ("затем") ||
  hasWordThenWs al ("после") || hasWordThenWs al ("нажмите") ||
  hasWordThenWs al ("выберите") || hasWordThenWs al ("введите")

/-- get_confidence_interpretation (lines 459-477). -/
def get_confidence_interpretation (score : ℚ) (priority : String) : String :=
  let base :=
    if 0.85 ≤ score then "Очень высокая уверенность"
    else if 0.70 ≤ score then "Высокая уверенность"
    else if 0.55 ≤ score then "Средняя уверенность"
    else if 0.40 ≤ score then "Умеренная уверенность"
    else if 0.25 ≤ score then "Низкая уверенность"
    else "Очень низкая уверенность"
  if priority = ("high") ∧ 0.7 < score then base ++ (" (с учетом важности вопроса)")
  else base

/-! ## Confidence scorer (src/app.py lines 294-389) -/

/-- A retrieved document (RetrievedDocument of the spec): page content and
the metadata fields read by the pipeline (metadata.get with defaults). -/
structure Doc where
  page_content : String
  source : String := ""
  type : String := "document"
deriving DecidableEq

/-- Maximum of a list of rationals, 0 when empty (Python
max(xs) if xs else 0). -/
def listMax : List ℚ → ℚ
  | [] => 0
  | x :: xs => xs.foldl max x

/-- The numeric factor entries of the confidence-details dict for a
non-empty document list (lines 327-370). -/
structure ConfFactors where
  best_document_relevancy : ℚ
  top_documents_relevancy : ℚ
  answer_quality : QualityScores
  context_alignment : ℚ
  concrete_instructions_bonus : Bool
deriving DecidableEq

/-- The factors of calculate_confidence on a non-empty document list
(lines 324-370): relevancy of the best document, average of the top 3,
answer quality, context alignment and the concrete-instructions bonus. -/
def rawFactors (docs_with_scores : List (Doc × ℚ)) (question answer context : String) :
    ConfFactors :=
  let relevancy_scores := docs_with_scores.map (fun p => 1 - p.2)
  let best_relevancy := listMax relevancy_scores
  let top_n := min 3 relevancy_scores.length
  let top_relevancy_scores :=
    (relevancy_scores.insertionSort (fun a b => b ≤ a)).take top_n
  let avg_top_relevancy := top_relevancy_scores.sum / (top_relevancy_scores.length : ℚ)
  { best_document_relevancy := best_relevancy,
    top_documents_relevancy := avg_top_relevancy,
    answer_quality := analyze_answer_quality answer question,
    context_alignment := calculate_context_alignment answer context,
    concrete_instructions_bonus := has_concrete_instructions answer }

/-- The weighted sum of the four factors (lines 333-365): best 30 percent,
top-3 average 20 percent, answer quality 35 percent, alignment 15 percent. -/
def weightedSum (f : ConfFactors) : ℚ :=
  f.best_document_relevancy * 0.3 + f.top_documents_relevancy * 0.2 +
  f.answer_quality.total_score * 0.35 + f.context_alignment * 0.15

/-- Python round(x, 3). -/
def round3 (x : ℚ) : ℚ := ((round (x * 1000) : ℤ) : ℚ) / 1000

/-- Lines 367-374: optional +0.1 bonus capped at 1, clamp to [0,1],
round to three decimals. -/
def confFromFactors (f : ConfFactors) : ℚ :=
  round3 (max 0 (min 1
    (if f.concrete_instructions_bonus then min (weightedSum f + 0.1) 1
     else weightedSum f)))

/-- Result of calculate_confidence: the score, its interpretation, and the
numeric factor entries of the details dict (none on the empty-document
early return, whose details carry no factor values). -/
structure ConfResult where
  score : ℚ
  interpretation : String
  factors : Option ConfFactors
deriving DecidableEq

/-- calculate_confidence (lines 294-389). -/
def calculate_confidence (docs_with_scores : List (Doc × ℚ))
    (question answer context priority : String) : ConfResult :=
  if docs_with_scores.isEmpty then
    { score := 0.1,
      interpretation := "Очень низкая уверенность (нет документов)",
      factors := none }
  else
    let f := rawFactors docs_with_scores question answer context
    let confidence_score := confFromFactors f
    { score := confidence_score,
      interpretation := get_confidence_interpretation confidence_score priority,
      factors := some f }

/-- The sum of the logged factor contributions of a confidence run:
each factor value times its weight, plus the logged bonus entry. -/
def loggedContribution (r : ConfResult) : ℚ :=
  match r.factors with
  | none => 0
  | some f => weightedSum f + (if f.concrete_instructions_bonus then 0.1 else 0)

/-! ## Priority classification (src/app.py lines 479-489 and 698-726) -/

/-- get_question_priority_keywords (lines 479-489). -/
def get_question_priority_keywords (question : String) : String :=
  let q_lower := pyLower question
  if HIGH_PRIORITY_TERMS.any (fun t => containsSub q_lower t) then "high"
  else if MEDIUM_PRIORITY_TERMS.any (fun t => containsSub q_lower t) then "medium"
  else "low"

/-- detect_priority (lines 698-726).  The llm argument is the raw output
of the classification call (none models the call raising).  The
critical-phrase check sits inside the branch where the LLM produced a
valid label; an invalid label or a raised call falls through to keyword
classification. -/
def detect_priority (llm : Option String) (question : String) : String :=
  match llm with
  | some raw =>
    let result := pyUpper (pyStrip raw)
    if result = ("LOW") ∨ result = ("MEDIUM") ∨ result = ("HIGH") then
      let question_lower := pyLower question
      if critical_phrases.any (fun p => containsSub question_lower p) then ("HIGH")
      else result
    else pyUpper (get_question_priority_keywords question)
  | none => pyUpper (get_question_priority_keywords question)

/-! ## Escalation decision (src/app.py lines 491-591) -/

/-- needs_immediate_escalation (lines 491-509): escalate (on every
priority) exactly when confidence is below the threshold. -/
def needs_immediate_escalation (confidence : ℚ) (priority : String) : Bool × String :=
  if confidence < CONFIDENCE_THRESHOLD then
    if priority = ("high") then
      (true, ("Уверенность ") ++ fmtPct1 confidence ++ (" ниже порога ") ++
        fmtPct0 CONFIDENCE_THRESHOLD ++ (" при высоком приоритете вопроса"))
    else if priority = ("medium") then
      (true, ("Уверенность ") ++ fmtPct1 confidence ++ (" ниже порога ") ++
        fmtPct0 CONFIDENCE_THRESHOLD)
    else
      (true, ("Уверенность ") ++ fmtPct1 confidence ++ (" ниже порога ") ++
        fmtPct0 CONFIDENCE_THRESHOLD)
  else (false, (""))

/-- get_escalation_level (lines 511-534): its own docstring and comments
promise L3 for HIGH priority always; the comparisons are against the
lowercase strings. -/
def get_escalation_level (priority : String) (confidence : ℚ) : Option String × String :=
  if priority = ("high") then
    if confidence < CONFIDENCE_THRESHOLD then
      (some ("L3"), ("Критическая проблема с финансами/безопасностью. Уверенность ") ++
        fmtPct1 confidence ++ (" < ") ++ fmtPct0 CONFIDENCE_THRESHOLD)
    else
      (some ("L3"), ("Высокий приоритет вопроса (финансы/безопасность) требует экспертной проверки на L3"))
  else if confidence < CONFIDENCE_THRESHOLD then
    if priority = ("medium") then
      (some ("L2"), ("Техническая проблема требует специалиста. Уверенность ") ++
        fmtPct1 confidence ++ (" < ") ++ fmtPct0 CONFIDENCE_THRESHOLD)
    else
      (some ("L1"), ("Информационный вопрос требует уточнения. Уверенность ") ++
        fmtPct1 confidence ++ (" < ") ++ fmtPct0 CONFIDENCE_THRESHOLD)
  else (none, (""))

/-- generate_low_confidence_response (lines 537-591): the scripted
fallback message and routing tier per priority (lowercase comparisons;
the confidence parameter is not interpolated into the text). -/
def generate_low_confidence_response (priority : String) (confidence : ℚ)
    (reason : String) : String × String :=
  if priority = ("high") then
    (("🔴 **СРОЧНО! ВАШ ВОПРОС ПЕРЕДАН СПЕЦИАЛИСТАМ БЕЗОПАСНОСТИ (L3)**\n\n") ++
     ("Ваш вопрос требует немедленного вмешательства специалистов по безопасности.\n\n") ++
     ("**НЕМЕДЛЕННЫЕ ДЕЙСТВИЯ:**\n") ++
     ("1. 📞 **Позвоните в службу безопасности Сбербанка: 900** (с мобильного) или **+7 (495) 500-55-50**\n") ++
     ("2. 🚫 **Немедленно заблокируйте карту** через мобильное приложение СберБанк Онлайн\n") ++
     ("3. 🏦 **Обратитесь в ближайшее отделение** с паспортом\n\n") ++
     ("**Информация об обращении:**\n") ++
     ("• Уровень обработки: **L3 (специалисты безопасности)**\n") ++
     ("• Время ответа: **в течение 15 минут**\n") ++
     ("• Телефон для срочных вопросов: **900**\n\n") ++
     ("*Причина эскалации: ") ++ reason ++ ("*"), ("L3"))
  else if priority = ("medium") then
    (("🔄 **ВАШ ВОПРОС ПЕРЕДАН ТЕХНИЧЕСКОМУ СПЕЦИАЛИСТУ (L2)**\n\n") ++
     ("Для решения вашего вопроса требуется помощь технического специалиста.\n\n") ++
     ("**Рекомендуемые действия:**\n") ++
     ("1. 📞 **Позвоните в техническую поддержку: 900**\n") ++
     ("2. 🌐 Посетите сайт: www.sberbank.ru\n") ++
     ("3. 📱 Используйте мобильное приложение\n\n") ++
     ("**Информация об обращении:**\n") ++
     ("• Уровень обработки: **L2 (технические специалисты)**\n") ++
     ("• Время ответа: **в течение 2 часов**\n") ++
     ("• Телефон поддержки: **900**\n\n") ++
     ("*Причина эскалации: ") ++ reason ++ ("*"), ("L2"))
  else
    (("ℹ️ **ВАШ ВОПРОС ПЕРЕДАН КОНСУЛЬТАНТУ (L1)**\n\n") ++
     ("Для получения точной информации ваш вопрос передан консультанту.\n\n") ++
     ("**Вы можете:**\n") ++
     ("1. 📞 **Позвонить в справочную службу: 900**\n") ++
     ("2. 🌐 Найти информацию на сайте: www.sberbank.ru\n") ++
     ("3. 🏦 Обратиться в отделение банка\n\n") ++
     ("**Информация об обращении:**\n") ++
     ("• Уровень обработки: **L1 (консультанты)**\n") ++
     ("• Время ответа: **в течение 4 часов**\n") ++
     ("• Телефон справочной: **900**\n\n") ++
     ("*Причина эскалации: ") ++ reason ++ ("*"), ("L1"))

/-! ## Judge (src/app.py lines 728-794) -/

/-- The partially-specified JSON object a successful judge call may
return: each field may be absent; route_to may be present with value
null (some none). -/
structure JudgeRaw where
  helped : Option Bool := none
  priority : Option String := none
  route_to : Option (Option String) := none
  reason : Option String := none
deriving DecidableEq

/-- The judge result after default-filling (all keys present). -/
structure JudgeResult where
  helped : Bool
  priority : String
  route_to : Option String
  reason : String
deriving DecidableEq

/-- Python truthiness of the route_to value (None and the empty string
are falsy). -/
def truthyRoute : Option String → Bool
  | none => false
  | some s => ! (s = (""))

/-- judge_answer (lines 728-794).  none models the call raising or the
parser failing; the except branch routes HIGH (uppercase comparison)
to L2. -/
def judge_answer (llm : Option JudgeRaw) (question answer context priority : String) :
    JudgeResult :=
  match llm with
  | some r =>
    let answer_lower := pyLower answer
    let helped :=
      match r.helped with
      | some b => b
      | none => ! (not_helpful_phrases.any (fun p => containsSub answer_lower p))
    let prio :=
      match r.priority with
      | some p => p
      | none => pyLower priority
    let route : Option String :=
      match r.route_to with
      | some v => v
      | none =>
        if ! helped then
          if prio = ("high") then some ("L3")
          else if prio = ("medium") then some ("L2")
          else some ("L1")
        else
          let needs_human :=
            (prio = ("high") &&
              (["позвоните", "обратитесь", "сотрудник"].any
                (fun w => containsSub answer_lower w))) ||
            (prio = ("medium") &&
              (["позвоните в поддержку", "обратитесь к оператору"].any
                (fun w => containsSub answer_lower w)))
          if needs_human then
            (if prio = ("high") then some ("L3") else some ("L2"))
          else none
    let reason :=
      match r.reason with
      | some s => s
      | none =>
        if helped then
          if truthyRoute route then
            ("Агент дал информацию, но для дальнейших действий нужен сотрудник")
          else ("Агент полностью ответил на вопрос")
        else ("Агент не смог найти информацию для ответа")
    { helped := helped, priority := prio, route_to := route, reason := reason }
  | none =>
    { helped := true, priority := pyLower priority,
      route_to := if priority = ("HIGH") then some ("L2") else none,
      reason := ("Ошибка оценки, считаем что агент ответил") }

/-! ## Query expansion (src/app.py lines 796-817) -/

/-- The leading list-marker characters stripped by re.sub of the
class [digits - • . ) s]+ anchored at the start. -/
def isMarkerChar (c : Char) : Bool :=
  c.isDigit || c = ('-') || c = ('•') || c = ('.') || c = (')') || isWs c

/-- expand_query (lines 796-817): the original question first, then
cleaned paraphrase lines, first-occurrence deduplicated and capped at 4;
a raised call returns just the original question. -/
def expand_query (llm : Option String) (question : String) : List String :=
  match llm with
  | none => [question]
  | some expansions_raw =>
    let lines := (splitNl expansions_raw.data).map
      (fun l => pyStrip (⟨l⟩ : String))
    let cleaned := ((lines.filter
        (fun l => ! (l = ("")) && 10 < l.length)).map
      (fun l => (⟨l.data.dropWhile isMarkerChar⟩ : String))).filter
      (fun c => ! (c = ("")) && ! (c = question))
    (dedupFirst (question :: cleaned)).take 4

/-! ## Source formatting (src/app.py lines 118-151 and 819-848) -/

/-- is_valid_sber_url (lines 145-151), taking the optional URL exactly as
the caller passes it (None and the empty string are falsy). -/
def is_valid_sber_url : Option String → Bool
  | none => false
  | some url =>
    ! (url = ("")) &&
    (["sberbank.ru", "sberbank.com", "sber.ru"].any
      (fun d => containsSub url d))

/-- os.path.basename: the part after the last slash. -/
def basename (p : String) : String :=
  ⟨((p.data.reverse.takeWhile (fun c => ! (c = ('/'))))).reverse⟩

/-- os.path.splitext root: everything before the last dot, when a dot
is present. -/
def splitextRoot (p : String) : String :=
  if p.data.any (fun c => c = ('.')) then
    ⟨(((p.data.reverse.dropWhile (fun c => ! (c = ('.'))))).drop 1).reverse⟩
  else p

/-- Suffix test (str.endswith). -/
def endsWithS (s suffixStr : String) : Bool :=
  isPrefixB suffixStr.data.reverse s.data.reverse

/-- generate_document_url (lines 124-143).  extractUrls stands for the
URL-extraction regex applied to the first 1000 characters; the theorems
below hold for every choice of it. -/
def generate_document_url (extractUrls : String → List String)
    (source_path content : String) : Option String :=
  if source_path = ("") then none
  else
    let filename := pyLower (basename source_path)
    let urls_in_content := extractUrls (strTake content 1000)
    let sber_urls := urls_in_content.filter (fun u => containsSub u ("sberbank"))
    match sber_urls with
    | u :: _ => some u
    | [] =>
      if endsWithS source_path (".html") then
        let html_name := splitextRoot filename
        match SBER_SITE_SECTIONS.filter (fun kv => containsSub html_name kv.1) with
        | kv :: _ => some kv.2
        | [] => none
      else none

/-- A source citation of the final Answer. -/
structure Source where
  source : Option String := none
  snippet : String
  relevance : Option ℚ := none
  url : Option String := none
  document_type : Option String := none
deriving DecidableEq

/-- format_sources (lines 819-848) with the default max_sources = 3. -/
def format_sources (extractUrls : String → List String)
    (docs_with_scores : List (Doc × ℚ)) : List Source :=
  (docs_with_scores.take 3).map (fun dp =>
    let doc := dp.1
    let snippet0 := pyStrip (strTake doc.page_content 300)
    let snippet :=
      if 300 < doc.page_content.length then snippet0 ++ ("...") else snippet0
    let doc_url := generate_document_url extractUrls doc.source doc.page_content
    let source_display :=
      if doc.type = ("pdf") then ("Официальный документ Сбербанка")
      else if doc.type = ("html") then ("Информация с сайта Сбербанка")
      else ("База знаний Сбербанка")
    { source := some source_display,
      snippet := snippet,
      relevance := some (1 - dp.2),
      url := if is_valid_sber_url doc_url then doc_url else none,
      document_type := some doc.type })

/-! ## Retrieval consolidation (src/app.py lines 1013-1021) -/

/-- The deduplication fingerprint: the first 200 characters of the
content (the source hashes this prefix; hash equality is modelled as
prefix equality). -/
def fp (e : Doc × ℚ) : String := strTake e.1.page_content 200

/-- One step of the dict-based deduplication: replace the entry holding
this fingerprint when the new score is strictly lower, keep dict
insertion order otherwise, append new fingerprints at the end. -/
def updateEntry : List (Doc × ℚ) → Doc × ℚ → List (Doc × ℚ)
  | [], p => [p]
  | q :: rest, p =>
    if fp q = fp p then (if p.2 < q.2 then p else q) :: rest
    else q :: updateEntry rest p

/-- The unique_docs dict after the loop of lines 1014-1019. -/
def dedupDocs (l : List (Doc × ℚ)) : List (Doc × ℚ) := l.foldl updateEntry []

/-- Lines 1013-1021: deduplicate the pooled results by content prefix,
keeping the lowest score, then sort ascending by score. -/
def consolidate (l : List (Doc × ℚ)) : List (Doc × ℚ) :=
  (dedupDocs l).insertionSort (fun a b => a.2 ≤ b.2)

/-! ## The ask endpoint (src/app.py lines 982-1209) -/

/-- The Answer model (lines 41-50); confidence_details is the numeric
factor record of the scorer (none on the two short-circuit paths, whose
ad-hoc dicts hold no factor values). -/
structure Answer where
  answer : String
  sources : List Source
  priority : String
  route_to : Option String
  judge_reason : String
  confidence : ℚ
  confidence_details : Option ConfFactors := none
  confidence_interpretation : String
  confidence_below_threshold : Bool
deriving DecidableEq

/-- The retrieval pooling loop of lines 1003-1011 (a per-query failure
contributes nothing and is logged only). -/
def poolResults (search : String → List (Doc × ℚ)) (queries : List String) :
    List (Doc × ℚ) :=
  queries.foldl (fun acc qu => acc ++ search qu) []

/-- The context-assembly loop of lines 1057-1074: walk the sorted
documents, skip scores above 0.95 and lexically unsupported contents,
stop after the joined context passes 3500 characters or 5 documents. -/
def selectDocsAux (question : String) :
    List (Doc × ℚ) → List String → List (Doc × ℚ) →
    List String × List (Doc × ℚ)
  | [], parts, used => (parts, used)
  | (d, s) :: rest, parts, used =>
    if (0.95 : ℚ) < s then selectDocsAux question rest parts used
    else if ! context_supports_question d.page_content question 1 then
      selectDocsAux question rest parts used
    else
      let parts2 := parts ++ [d.page_content]
      let used2 := used ++ [(d, s)]
      if 3500 < (("\n\n").intercalate parts2).length then (parts2, used2)
      else if 5 ≤ parts2.length then (parts2, used2)
      else selectDocsAux question rest parts2 used2

/-- The numbered link lines of lines 1181-1183. -/
def numberLines : Nat → List String → String
  | _, [] => ("")
  | i, u :: rest =>
    Nat.repr i ++ (". ") ++ u ++ ("\n") ++ numberLines (i + 1) rest

/-- The appended links block of lines 1178-1184. -/
def linksText (urls : List String) : String :=
  ("\n\n🔗 **Полезные ссылки:**\n") ++ numberLines 1 (urls.take 3)

/-- The ask endpoint (lines 982-1209).  External collaborators are
parameters: priorityLLM, expansionLLM, answerLLM are the raw outputs of
the three generation calls (none = the call raised), judgeLLM is the
parsed judge object (none = raised or unparseable), search is the vector
index, extractUrls the URL-extraction regex.  none as the overall result
models the HTTP 400 rejection of a too-short question. -/
def ask (extractUrls : String → List String)
    (priorityLLM expansionLLM answerLLM : Option String)
    (judgeLLM : Option JudgeRaw)
    (search : String → List (Doc × ℚ)) (q : String) : Option Answer :=
  let question := pyStrip q
  if question.length < 3 then none
  else
    let priority := detect_priority priorityLLM question
    let expanded_queries := expand_query expansionLLM question
    let sorted_docs := consolidate (poolResults search expanded_queries)
    if sorted_docs.isEmpty then
      -- lines 1023-1052: zero documents retrieved
      let confidence : ℚ := 0.1
      let escalation_reason := ("Информация по вопросу не найдена в базе знаний")
      let lvl := get_escalation_level priority confidence
      let ar := generate_low_confidence_response priority confidence
        (escalation_reason ++ (". ") ++ lvl.2)
      some { answer := ar.1, sources := [], priority := pyLower priority,
             route_to := some ar.2,
             judge_reason := ("Документы не найдены. ") ++ escalation_reason,
             confidence := confidence, confidence_details := none,
             confidence_interpretation :=
               ("Очень низкая уверенность (нет документов)"),
             confidence_below_threshold := true }
    else
      let sel := selectDocsAux question sorted_docs [] []
      if sel.1.isEmpty then
        -- lines 1076-1104: documents retrieved but none passed the gate
        let confidence : ℚ := 0.2
        let escalation_reason :=
          ("Не найдено релевантной информации по вашему вопросу")
        let lvl := get_escalation_level priority confidence
        let ar := generate_low_confidence_response priority confidence
          (escalation_reason ++ (". ") ++ lvl.2)
        some { answer := ar.1, sources := [], priority := pyLower priority,
               route_to := some ar.2,
               judge_reason := ("Недостаточно релевантных документов. ") ++
                 escalation_reason,
               confidence := confidence, confidence_details := none,
               confidence_interpretation :=
                 ("Очень низкая уверенность (нет релевантных документов)"),
               confidence_below_threshold := true }
      else
        let context := ("\n\n").intercalate sel.1
        let answer_text :=
          match answerLLM with
          | some t => pyStrip t
          | none => ("Извините, произошла ошибка при формировании ответа. ") ++
              ("Пожалуйста, обратитесь в поддержку по телефону 900.")
        let cres := calculate_confidence sel.2 question answer_text context priority
        let ne := needs_immediate_escalation cres.score priority
        if ne.1 then
          -- lines 1134-1155: low confidence, escalate without answering
          let ar := generate_low_confidence_response priority cres.score ne.2
          some { answer := ar.1, sources := [], priority := pyLower priority,
                 route_to := some ar.2,
                 judge_reason := ("Низкая уверенность в ответе. ") ++ ne.2,
                 confidence := cres.score, confidence_details := cres.factors,
                 confidence_interpretation := cres.interpretation,
                 confidence_below_threshold := true }
        else
          -- lines 1157-1209: normal answer with post-hoc judge
          let judge := judge_answer judgeLLM question answer_text
            (strTake context 1500) priority
          let sources :=
            if judge.helped && ! sel.2.isEmpty then
              format_sources extractUrls sel.2
            else []
          let urls := sources.filterMap (fun s => s.url)
          let answer_text2 :=
            if ! sources.isEmpty && ! urls.isEmpty then
              answer_text ++ linksText urls
            else answer_text
          let overridden :=
            judge.priority = ("high") && ! truthyRoute judge.route_to
          let route_to :=
            if overridden then some ("L3") else judge.route_to
          let judge_reason :=
            if overridden then
              ("Высокий приоритет вопроса требует проверки специалистом")
            else judge.reason
          some { answer := answer_text2, sources := sources,
                 priority := judge.priority, route_to := route_to,
                 judge_reason := judge_reason,
                 confidence := cres.score, confidence_details := cres.factors,
                 confidence_interpretation := cres.interpretation,
                 confidence_below_threshold := false }

/-- The sort relation of the consolidation (ascending distance score)
is total. -/
instance : IsTotal (Doc × ℚ) (fun a b => a.2 ≤ b.2) :=
  ⟨fun a b => le_total a.2 b.2⟩

/-- The sort relation of the consolidation is transitive. -/
instance : IsTrans (Doc × ℚ) (fun a b => a.2 ≤ b.2) :=
  ⟨fun _ _ _ h1 h2 => le_trans h1 h2⟩

/-! ## Theorems -/

/-- C1: the claim promises at least L3 for every HIGH-priority request.
Counter-evidence run: the question contains the critical term украли, so
the detected priority is HIGH; the single retrieved document scores 0.96
and is dropped by the relevance gate, so the low-confidence branch runs —
and routes the request to L1 with the consultant template, because the
pipeline hands the uppercase string HIGH to functions comparing against
lowercase high.  The code contradicts its own docstrings (get_escalation_level:
HIGH is always L3), so the claim is right and the code wrong. -/
theorem c1_high_priority_routed_to_L1_on_low_confidence :
    (ask (fun _ => []) none none none none
        (fun _ => [({ page_content := ("совсем другое содержание") }, 0.96)])
        ("украли карту")).map (fun a => (a.priority, a.route_to)) =
      some (("high"), some ("L1")) := by decide

/-- C7: the claim promises the zero-document short circuit routes by
priority (HIGH to L3).  Counter-evidence run: a HIGH-priority question
(contains деньги and сняли) with empty retrieval is routed to L1 (same
uppercase/lowercase mismatch), although sources are indeed empty and the
confidence is the fixed 0.1 floor. -/
theorem c7_zero_docs_routed_to_L1_for_high_priority :
    (ask (fun _ => []) none none none none (fun _ => []) ("сняли деньги со счета")).map
      (fun a => (a.sources, a.confidence, a.priority, a.route_to)) =
    some ([], 1/10, ("high"), some ("L1")) := by decide

/-- C2 counterexample: the question заблокировали contains the critical
phrase заблокирова, yet when the priority LLM call fails the override is
skipped: detect_priority falls back to keyword classification and does
not return HIGH (no keyword of either priority table occurs). -/
theorem c2_cx_llm_failure_skips_critical_override :
    critical_phrases.any (fun p => containsSub (pyLower ("заблокировали")) p) = true ∧
    ¬ detect_priority none ("заблокировали") = ("HIGH") := by decide

/-- C2 amended: the critical-phrase override forces HIGH only on the
path where the LLM classification produced a valid label; there it runs
regardless of the label. -/
theorem c2_critical_override_on_valid_label (raw question : String)
    (hvalid : pyUpper (pyStrip raw) = ("LOW") ∨ pyUpper (pyStrip raw) = ("MEDIUM") ∨
      pyUpper (pyStrip raw) = ("HIGH"))
    (hcrit : critical_phrases.any (fun p => containsSub (pyLower question) p) = true) :
    detect_priority (some raw) question = ("HIGH") := by
  unfold detect_priority
  simp only [hcrit, if_true, if_pos hvalid]

/-- Witness for the C2 amended theorem at the spec scenario question
(an unauthorized charge) and the label LOW. -/
theorem c2_critical_override_witness :
    (pyUpper (pyStrip ("LOW")) = ("LOW") ∨ pyUpper (pyStrip ("LOW")) = ("MEDIUM") ∨
      pyUpper (pyStrip ("LOW")) = ("HIGH")) ∧
    critical_phrases.any
      (fun p => containsSub (pyLower ("у меня списали деньги без разрешения")) p) = true ∧
    detect_priority (some ("LOW")) ("у меня списали деньги без разрешения") = ("HIGH") :=
  ⟨Or.inl (by decide), by decide,
    c2_critical_override_on_valid_label ("LOW") ("у меня списали деньги без разрешения")
      (Or.inl (by decide)) (by decide)⟩

/-- C3 counterexample: an answer that contains the refusal phrase
информации нет but also a numbered step, digits and perfect context
alignment, scored against a document at distance 0, reaches the top
interpretation band — far above low. -/
theorem c3_cx_refusal_with_very_high_interpretation :
    (analyze_answer_quality ("информации нет. 1. позвоните 900 и затем введите код 1234")
      ("вопрос")).has_negative = true ∧
    (calculate_confidence [({ page_content := ("карта помощь") }, 0)] ("вопрос")
      ("информации нет. 1. позвоните 900 и затем введите код 1234")
      ("информации нет. 1. позвоните 900 и затем введите код 1234") ("low")).interpretation =
      ("Очень высокая уверенность") := by decide

/-- The length sub-score never exceeds 1 (it is clamped). -/
theorem aaq_length_le_one (answer question : String) :
    (analyze_answer_quality answer question).length_score ≤ 1 :=
  max_le (by norm_num) (min_le_left _ _)

/-- The structure sub-score never exceeds 1 (it is clamped). -/
theorem aaq_structure_le_one (answer question : String) :
    (analyze_answer_quality answer question).structure_score ≤ 1 :=
  min_le_right _ _

/-- The specificity sub-score, spelled out. -/
theorem aaq_specificity_eq (answer question : String) :
    (analyze_answer_quality answer question).specificity_score =
      if hasDigit answer then (0.8:ℚ)
      else if ["сбербанк", "карта", "счет", "пароль"].any
          (fun w => containsSub (pyLower answer) w) then 0.7
      else 0.5 := rfl

/-- The specificity sub-score never exceeds 0.8. -/
theorem aaq_specificity_le (answer question : String) :
    (analyze_answer_quality answer question).specificity_score ≤ 0.8 := by
  rw [aaq_specificity_eq]
  split_ifs <;> norm_num

/-- The weighted total of the quality sub-scores, spelled out. -/
theorem aaq_total_eq (answer question : String) :
    (analyze_answer_quality answer question).total_score =
      (analyze_answer_quality answer question).length_score * 0.15 +
      (analyze_answer_quality answer question).negative_score * 0.50 +
      (analyze_answer_quality answer question).structure_score * 0.20 +
      (analyze_answer_quality answer question).specificity_score * 0.15 := rfl

/-- The negatives sub-score, spelled out. -/
theorem aaq_negative_eq (answer question : String) :
    (analyze_answer_quality answer question).negative_score =
      if negative_phrases.any (fun p => containsSub (pyLower answer) p) then 0 else 1 := rfl

/-- C3 amended: an answer containing a refusal phrase always has a zero
negatives sub-score, and the dominant weight of that factor caps the
answer-quality total at 1/2 (so its contribution to confidence is at most
0.175); the overall interpretation, however, can still be above low, as
the counterexample shows. -/
theorem c3_refusal_zeroes_negatives_and_caps_quality (answer question : String)
    (h : negative_phrases.any (fun p => containsSub (pyLower answer) p) = true) :
    (analyze_answer_quality answer question).negative_score = 0 ∧
    (analyze_answer_quality answer question).total_score ≤ 1/2 := by
  have hn : (analyze_answer_quality answer question).negative_score = 0 := by
    rw [aaq_negative_eq, if_pos h]
  refine ⟨hn, ?_⟩
  have h1 := aaq_length_le_one answer question
  have h2 := aaq_structure_le_one answer question
  have h3 := aaq_specificity_le answer question
  rw [aaq_total_eq, hn]
  norm_num
  linarith

/-- Witness for the C3 amended theorem at a concrete refusal answer. -/
theorem c3_refusal_caps_quality_witness :
    negative_phrases.any
      (fun p => containsSub (pyLower ("к сожалению, информации нет")) p) = true ∧
    (analyze_answer_quality ("к сожалению, информации нет") ("тест")).negative_score = 0 ∧
    (analyze_answer_quality ("к сожалению, информации нет") ("тест")).total_score ≤ 1/2 :=
  ⟨by decide,
    (c3_refusal_zeroes_negatives_and_caps_quality ("к сожалению, информации нет") ("тест")
      (by decide)).1,
    (c3_refusal_zeroes_negatives_and_caps_quality ("к сожалению, информации нет") ("тест")
      (by decide)).2⟩

/-- round3 stays within 1/2000 of its argument. -/
theorem round3_err (x : ℚ) : |round3 x - x| ≤ 1/2000 := by
  unfold round3
  have h := abs_sub_round (x * 1000)
  rw [abs_sub_comm] at h
  have hx : ((round (x * 1000) : ℤ) : ℚ) / 1000 - x =
      (((round (x * 1000) : ℤ) : ℚ) - x * 1000) / 1000 := by ring
  rw [hx, abs_div]
  rw [abs_of_pos (by norm_num : (0:ℚ) < 1000)]
  linarith

/-- round3 of a value in [0,1] stays in [0,1]. -/
theorem round3_mem (x : ℚ) (h0 : 0 ≤ x) (h1 : x ≤ 1) :
    0 ≤ round3 x ∧ round3 x ≤ 1 := by
  unfold round3
  have hy1 : x * 1000 + 1/2 < 1001 := by linarith
  have hfl0 : 0 ≤ round (x * 1000) := by
    rw [round_eq]
    exact Int.floor_nonneg.mpr (by linarith)
  have hfl1 : round (x * 1000) ≤ 1000 := by
    rw [round_eq]
    have : ⌊x * 1000 + 1/2⌋ < 1001 := by
      rw [Int.floor_lt]
      exact_mod_cast hy1
    omega
  constructor
  · apply div_nonneg _ (by norm_num)
    exact_mod_cast hfl0
  · rw [div_le_one (by norm_num)]
    exact_mod_cast hfl1

/-- The clamped-and-rounded final score of a factor record lies in [0,1]
and is an exact multiple of 0.001. -/
theorem confFromFactors_mem (f : ConfFactors) :
    0 ≤ confFromFactors f ∧ confFromFactors f ≤ 1 ∧
      ∃ k : ℤ, confFromFactors f = (k : ℚ) / 1000 := by
  have h0 : (0:ℚ) ≤ max 0 (min 1 (if f.concrete_instructions_bonus then
      min (weightedSum f + 0.1) 1 else weightedSum f)) := le_max_left _ _
  have h1 : max (0:ℚ) (min 1 (if f.concrete_instructions_bonus then
      min (weightedSum f + 0.1) 1 else weightedSum f)) ≤ 1 :=
    max_le (by norm_num) (min_le_left _ _)
  obtain ⟨m0, m1⟩ := round3_mem _ h0 h1
  exact ⟨m0, m1, round _, rfl⟩

/-- The score on the non-empty-document path, spelled out. -/
theorem calculate_confidence_score_eq (docs : List (Doc × ℚ))
    (question answer context priority : String) (h : ¬ docs.isEmpty = true) :
    (calculate_confidence docs question answer context priority).score =
      confFromFactors (rawFactors docs question answer context) := by
  unfold calculate_confidence
  rw [if_neg h]

/-- C4: for every input the confidence returned by calculate_confidence
lies in [0,1] and is an exact multiple of 0.001 (three-decimal rounding),
on the empty-document early return as well as on the computed path. -/
theorem c4_confidence_bounded_and_rounded (docs : List (Doc × ℚ))
    (question answer context priority : String) :
    0 ≤ (calculate_confidence docs question answer context priority).score ∧
    (calculate_confidence docs question answer context priority).score ≤ 1 ∧
    ∃ k : ℤ, (calculate_confidence docs question answer context priority).score =
      (k : ℚ) / 1000 := by
  by_cases hd : docs.isEmpty = true
  · have hs : (calculate_confidence docs question answer context priority).score = 0.1 := by
      unfold calculate_confidence
      rw [if_pos hd]
    rw [hs]
    exact ⟨by norm_num, by norm_num, 100, by norm_num⟩
  · rw [calculate_confidence_score_eq docs question answer context priority hd]
    exact confFromFactors_mem _

/-- C5 counterexample: with a perfectly relevant document and an answer
holding a numbered step, a bullet, digits and instruction words, the
post-weighting contributions (including the logged +0.1 bonus) sum to
about 1.074, while the returned score is clamped to 1: the logged
breakdown over-counts by far more than any rounding tolerance. -/
theorem c5_cx_bonus_clamp_breaks_reconstruction :
    (calculate_confidence [({ page_content := ("инструкция") }, 0)] ("вопрос")
      ("для оплаты: 1. нажмите кнопку - введите сумму 900")
      ("для оплаты: 1. нажмите кнопку - введите сумму 900") ("low")).score = 1 ∧
    (1:ℚ)/1000 <
      loggedContribution (calculate_confidence [({ page_content := ("инструкция") }, 0)]
        ("вопрос") ("для оплаты: 1. нажмите кнопку - введите сумму 900")
        ("для оплаты: 1. нажмите кнопку - введите сумму 900") ("low")) -
      (calculate_confidence [({ page_content := ("инструкция") }, 0)] ("вопрос")
        ("для оплаты: 1. нажмите кнопку - введите сумму 900")
        ("для оплаты: 1. нажмите кнопку - введите сумму 900") ("low")).score := by
  constructor
  · decide
  · decide

/-- The logged contributions on the non-empty-document path, spelled out. -/
theorem calculate_confidence_logged_eq (docs : List (Doc × ℚ))
    (question answer context priority : String) (h : ¬ docs.isEmpty = true) :
    loggedContribution (calculate_confidence docs question answer context priority) =
      weightedSum (rawFactors docs question answer context) +
      (if (rawFactors docs question answer context).concrete_instructions_bonus
        then 0.1 else 0) := by
  unfold calculate_confidence
  rw [if_neg h]
  rfl

/-- Without clamping at the boundaries, the final score is exactly the
rounded sum of the logged contributions. -/
theorem confFromFactors_eq_round3 (f : ConfFactors)
    (h0 : 0 ≤ weightedSum f + (if f.concrete_instructions_bonus then (0.1:ℚ) else 0))
    (h1 : weightedSum f + (if f.concrete_instructions_bonus then (0.1:ℚ) else 0) ≤ 1) :
    confFromFactors f =
      round3 (weightedSum f + (if f.concrete_instructions_bonus then (0.1:ℚ) else 0)) := by
  unfold confFromFactors
  by_cases hb : f.concrete_instructions_bonus = true
  · simp only [hb, if_true] at h0 h1 ⊢
    rw [min_eq_left h1, min_eq_right h1, max_eq_right h0]
  · simp only [hb, if_false, Bool.false_eq_true] at h0 h1 ⊢
    rw [add_zero] at h0 h1
    rw [min_eq_right h1, max_eq_right h0, add_zero]

/-- C5 amended: the sum of the logged post-weighting contributions
reconstructs the returned score within the three-decimal rounding
tolerance whenever that sum lies in [0,1]; when the +0.1 bonus pushes it
above 1 the score is clamped at 1 and the logged breakdown over-counts
(see the counterexample). -/
theorem c5_reconstruction_within_tolerance (docs : List (Doc × ℚ))
    (question answer context priority : String) (hne : ¬ docs.isEmpty = true)
    (h0 : 0 ≤ loggedContribution (calculate_confidence docs question answer context priority))
    (h1 : loggedContribution (calculate_confidence docs question answer context priority) ≤ 1) :
    |(calculate_confidence docs question answer context priority).score -
      loggedContribution (calculate_confidence docs question answer context priority)| ≤
      1/2000 := by
  rw [calculate_confidence_logged_eq docs question answer context priority hne] at h0 h1 ⊢
  rw [calculate_confidence_score_eq docs question answer context priority hne]
  rw [confFromFactors_eq_round3 _ h0 h1]
  exact round3_err _

/-- Witness for the C5 amended theorem: a run whose logged contributions
sum to a value inside [0,1]. -/
theorem c5_reconstruction_witness :
    (¬ ([({ page_content := ("инструкция") }, 1/2)] : List (Doc × ℚ)).isEmpty = true) ∧
    0 ≤ loggedContribution (calculate_confidence
      [({ page_content := ("инструкция") }, 1/2)] ("вопрос")
      ("как оформить карту в отделении банка")
      ("как оформить карту в отделении банка") ("low")) ∧
    loggedContribution (calculate_confidence
      [({ page_content := ("инструкция") }, 1/2)] ("вопрос")
      ("как оформить карту в отделении банка")
      ("как оформить карту в отделении банка") ("low")) ≤ 1 ∧
    |(calculate_confidence [({ page_content := ("инструкция") }, 1/2)] ("вопрос")
        ("как оформить карту в отделении банка")
        ("как оформить карту в отделении банка") ("low")).score -
      loggedContribution (calculate_confidence
        [({ page_content := ("инструкция") }, 1/2)] ("вопрос")
        ("как оформить карту в отделении банка")
        ("как оформить карту в отделении банка") ("low"))| ≤ 1/2000 :=
  ⟨by decide, by decide, by decide,
    c5_reconstruction_within_tolerance _ _ _ _ _ (by decide) (by decide) (by decide)⟩

/-- First-occurrence deduplication yields a duplicate-free list whose
elements avoid the already-seen keys. -/
theorem dedupFirstAux_nodup (l : List String) : ∀ seen : List String,
    (dedupFirstAux seen l).Nodup ∧ ∀ x ∈ dedupFirstAux seen l, x ∉ seen := by
  induction l with
  | nil =>
    intro seen
    exact ⟨List.nodup_nil, by intro x hx; simp [dedupFirstAux] at hx⟩
  | cons x xs ih =>
    intro seen
    by_cases hx : x ∈ seen
    · rw [dedupFirstAux, if_pos hx]
      exact ih seen
    · rw [dedupFirstAux, if_neg hx]
      obtain ⟨hnd, hnin⟩ := ih (x :: seen)
      refine ⟨List.nodup_cons.mpr ⟨?_, hnd⟩, ?_⟩
      · intro hmem
        exact hnin x hmem (List.mem_cons_self x seen)
      · intro y hy
        rcases List.mem_cons.mp hy with rfl | hy2
        · exact hx
        · intro hyseen
          exact hnin y hy2 (List.mem_cons_of_mem x hyseen)

/-- C9: expand_query always returns a duplicate-free list of at most 4
queries containing the original question, and a raised expansion call
yields exactly the one-element list with the original question. -/
theorem c9_expand_query_shape (llm : Option String) (question : String) :
    (expand_query llm question).Nodup ∧
    (expand_query llm question).length ≤ 4 ∧
    question ∈ expand_query llm question ∧
    expand_query none question = [question] := by
  have key : ∀ cs : List String,
      ((dedupFirst (question :: cs)).take 4).Nodup ∧
      ((dedupFirst (question :: cs)).take 4).length ≤ 4 ∧
      question ∈ (dedupFirst (question :: cs)).take 4 := by
    intro cs
    refine ⟨List.Nodup.sublist (List.take_sublist 4 _) (dedupFirstAux_nodup _ []).1,
      ?_, ?_⟩
    · rw [List.length_take]
      exact min_le_left 4 _
    · rw [dedupFirst, dedupFirstAux, if_neg (List.not_mem_nil question)]
      exact List.mem_cons_self _ _
  cases llm with
  | none => exact ⟨List.nodup_singleton question, by simp [expand_query],
      List.mem_singleton_self question, rfl⟩
  | some raw => exact ⟨(key _).1, (key _).2.1, (key _).2.2, rfl⟩

/-- The escalate/answer decision of needs_immediate_escalation is exactly
the comparison of the confidence against the threshold, for every
priority (all three priority branches return true below the threshold). -/
theorem needs_immediate_escalation_fst (c : ℚ) (p : String) :
    (needs_immediate_escalation c p).1 = decide (c < CONFIDENCE_THRESHOLD) := by
  unfold needs_immediate_escalation
  by_cases h : c < CONFIDENCE_THRESHOLD
  · rw [if_pos h]
    split_ifs <;> simp [h]
  · rw [if_neg h]
    simp [h]

/-- C10: on every path of the ask endpoint the returned
confidence_below_threshold flag is true exactly when the returned
confidence is below the 0.4 threshold. -/
theorem c10_flag_iff_below_threshold (extractUrls : String → List String)
    (priorityLLM expansionLLM answerLLM : Option String) (judgeLLM : Option JudgeRaw)
    (search : String → List (Doc × ℚ)) (q : String) (A : Answer)
    (h : ask extractUrls priorityLLM expansionLLM answerLLM judgeLLM search q = some A) :
    A.confidence_below_threshold = decide (A.confidence < CONFIDENCE_THRESHOLD) := by
  simp only [ask] at h
  split at h
  · exact absurd h (by simp)
  · split at h
    · -- zero documents: flag true, confidence 0.1
      injection h with h2
      subst h2
      show true = decide ((0.1:ℚ) < CONFIDENCE_THRESHOLD)
      decide
    · split at h
      · -- relevance gate empty: flag true, confidence 0.2
        injection h with h2
        subst h2
        show true = decide ((0.2:ℚ) < CONFIDENCE_THRESHOLD)
        decide
      · split at h
        · -- low confidence: flag true and the branch condition gives the bound
          next hcond =>
            injection h with h2
            subst h2
            rw [needs_immediate_escalation_fst] at hcond
            exact hcond.symm
        · -- normal path: flag false, confidence at or above threshold
          next hcond =>
            injection h with h2
            subst h2
            rw [needs_immediate_escalation_fst, Bool.not_eq_true] at hcond
            exact hcond.symm

/-- Witness for C10: a concrete run (zero documents retrieved) on which
the flag matches the threshold comparison. -/
theorem c10_flag_witness :
    ∃ A : Answer,
      ask (fun _ => []) none none none none (fun _ => []) ("как дела банк") = some A ∧
      A.confidence_below_threshold = decide (A.confidence < CONFIDENCE_THRESHOLD) := by
  cases hA : ask (fun _ => []) none none none none (fun _ => []) ("как дела банк") with
  | none => exact absurd hA (by decide)
  | some A =>
    exact ⟨A, rfl, c10_flag_iff_below_threshold _ _ _ _ _ _ _ _ hA⟩

/-- Retrieval over an index that returns nothing pools nothing. -/
theorem poolResults_nil (queries : List String) :
    poolResults (fun _ => ([] : List (Doc × ℚ))) queries = [] := by
  have h : ∀ acc : List (Doc × ℚ),
      queries.foldl (fun acc _ => acc ++ ([] : List (Doc × ℚ))) acc = acc := by
    induction queries with
    | nil => intro acc; rfl
    | cons x xs ih => intro acc; rw [List.foldl_cons, List.append_nil]; exact ih acc
  exact h []

/-- detect_priority only ever returns one of the three labels. -/
theorem detect_priority_mem (llm : Option String) (q : String) :
    detect_priority llm q = ("LOW") ∨ detect_priority llm q = ("MEDIUM") ∨
      detect_priority llm q = ("HIGH") := by
  have hk : ∀ s : String, pyUpper (get_question_priority_keywords s) = ("LOW") ∨
      pyUpper (get_question_priority_keywords s) = ("MEDIUM") ∨
      pyUpper (get_question_priority_keywords s) = ("HIGH") := by
    intro s
    simp only [get_question_priority_keywords]
    split_ifs
    · exact Or.inr (Or.inr (by decide))
    · exact Or.inr (Or.inl (by decide))
    · exact Or.inl (by decide)
  cases llm with
  | none => exact hk q
  | some raw =>
    simp only [detect_priority]
    split_ifs with h1 h2
    · exact Or.inr (Or.inr rfl)
    · exact h1
    · exact hk q

/-- C8: whenever documents were pooled but the relevance gate leaves the
context empty, the answer carries the fixed 0.2 confidence (at most
0.25), an empty sources list, and its text differs from the one the same
request would get with zero retrieved documents, whose floor 0.1 is
strictly lower. -/
theorem c8_gate_empty_vs_zero_docs (extractUrls : String → List String)
    (priorityLLM expansionLLM answerLLM : Option String) (judgeLLM : Option JudgeRaw)
    (search : String → List (Doc × ℚ)) (q : String)
    (hlen : ¬ (pyStrip q).length < 3)
    (hpool : ¬ (consolidate (poolResults search
      (expand_query expansionLLM (pyStrip q)))).isEmpty = true)
    (hgate : (selectDocsAux (pyStrip q)
      (consolidate (poolResults search (expand_query expansionLLM (pyStrip q))))
      [] []).1.isEmpty = true) :
    (ask extractUrls priorityLLM expansionLLM answerLLM judgeLLM search q).map
        (fun a => (a.confidence, a.sources)) = some (0.2, []) ∧
    (0.2 : ℚ) ≤ 0.25 ∧
    (ask extractUrls priorityLLM expansionLLM answerLLM judgeLLM (fun _ => []) q).map
        (fun a => a.confidence) = some 0.1 ∧
    (0.1 : ℚ) < 0.2 ∧
    (ask extractUrls priorityLLM expansionLLM answerLLM judgeLLM search q).map
        (fun a => a.answer) ≠
      (ask extractUrls priorityLLM expansionLLM answerLLM judgeLLM (fun _ => []) q).map
        (fun a => a.answer) := by
  have hzero : consolidate (poolResults (fun _ => ([] : List (Doc × ℚ)))
      (expand_query expansionLLM (pyStrip q))) = [] := by
    rw [poolResults_nil]
    rfl
  simp only [ask]
  rw [if_neg hlen, if_neg hpool, if_pos hgate, hzero, if_neg hlen]
  rw [if_pos (List.isEmpty_nil : ([] : List (Doc × ℚ)).isEmpty = true)]
  refine ⟨rfl, by norm_num, rfl, by norm_num, ?_⟩
  rcases detect_priority_mem priorityLLM (pyStrip q) with hp | hp | hp <;>
    rw [hp] <;> decide

/-- Witness for C8: a concrete request whose single retrieved document is
dropped by the relevance gate, against the same request with empty
retrieval. -/
theorem c8_gate_empty_vs_zero_docs_witness :
    (ask (fun _ => []) none none none none
        (fun _ => [({ page_content := ("совсем другое") }, 0.96)]) ("украли деньги")).map
        (fun a => (a.confidence, a.sources)) = some (0.2, []) ∧
    (0.2 : ℚ) ≤ 0.25 ∧
    (ask (fun _ => []) none none none none (fun _ => []) ("украли деньги")).map
        (fun a => a.confidence) = some 0.1 ∧
    (0.1 : ℚ) < 0.2 ∧
    (ask (fun _ => []) none none none none
        (fun _ => [({ page_content := ("совсем другое") }, 0.96)]) ("украли деньги")).map
        (fun a => a.answer) ≠
      (ask (fun _ => []) none none none none (fun _ => []) ("украли деньги")).map
        (fun a => a.answer) :=
  c8_gate_empty_vs_zero_docs (fun _ => []) none none none none
    (fun _ => [({ page_content := ("совсем другое") }, 0.96)]) ("украли деньги")
    (by decide) (by decide) (by decide)

/-- Every entry of an updated dict is an old entry or the new pair. -/
theorem updateEntry_mem (m : List (Doc × ℚ)) (p e : Doc × ℚ)
    (h : e ∈ updateEntry m p) : e ∈ m ∨ e = p := by
  induction m with
  | nil =>
    simp only [updateEntry, List.mem_singleton] at h
    exact Or.inr h
  | cons q rest ih =>
    rw [updateEntry] at h
    by_cases hq : fp q = fp p
    · rw [if_pos hq] at h
      rcases List.mem_cons.mp h with he | he
      · by_cases hlt : p.2 < q.2
        · rw [if_pos hlt] at he
          exact Or.inr he
        · rw [if_neg hlt] at he
          exact Or.inl (by rw [he]; exact List.mem_cons_self q rest)
      · exact Or.inl (List.mem_cons_of_mem q he)
    · rw [if_neg hq] at h
      rcases List.mem_cons.mp h with he | he
      · exact Or.inl (by rw [he]; exact List.mem_cons_self q rest)
      · rcases ih he with h2 | h2
        · exact Or.inl (List.mem_cons_of_mem q h2)
        · exact Or.inr h2

/-- Updating preserves pairwise-distinct fingerprints. -/
theorem updateEntry_pairwise (m : List (Doc × ℚ)) (p : Doc × ℚ)
    (h : m.Pairwise (fun a b => fp a ≠ fp b)) :
    (updateEntry m p).Pairwise (fun a b => fp a ≠ fp b) := by
  induction m with
  | nil => simp [updateEntry]
  | cons q rest ih =>
    rw [List.pairwise_cons] at h
    obtain ⟨hq_rest, hrest⟩ := h
    rw [updateEntry]
    by_cases hq : fp q = fp p
    · rw [if_pos hq]
      refine List.pairwise_cons.mpr ⟨?_, hrest⟩
      intro r hr
      have hh : fp (if p.2 < q.2 then p else q) = fp q := by
        split_ifs
        · exact hq.symm
        · rfl
      rw [hh]
      exact hq_rest r hr
    · rw [if_neg hq]
      refine List.pairwise_cons.mpr ⟨?_, ih hrest⟩
      intro r hr
      rcases updateEntry_mem rest p r hr with h2 | h2
      · exact hq_rest r h2
      · rw [h2]
        exact hq

/-- Every retained entry carrying the new pair's fingerprint scores no
worse than the new pair. -/
theorem updateEntry_min_new (m : List (Doc × ℚ)) (p e : Doc × ℚ)
    (hpw : m.Pairwise (fun a b => fp a ≠ fp b))
    (h : e ∈ updateEntry m p) (hfp : fp e = fp p) : e.2 ≤ p.2 := by
  induction m with
  | nil =>
    simp only [updateEntry, List.mem_singleton] at h
    rw [h]
  | cons q rest ih =>
    rw [List.pairwise_cons] at hpw
    obtain ⟨hq_rest, hrest⟩ := hpw
    rw [updateEntry] at h
    by_cases hq : fp q = fp p
    · rw [if_pos hq] at h
      rcases List.mem_cons.mp h with he | he
      · by_cases hlt : p.2 < q.2
        · rw [if_pos hlt] at he
          rw [he]
        · rw [if_neg hlt] at he
          rw [he]
          exact le_of_not_lt hlt
      · exact absurd (hq.trans hfp.symm) (hq_rest e he)
    · rw [if_neg hq] at h
      rcases List.mem_cons.mp h with he | he
      · rw [he] at hfp
        exact absurd hfp hq
      · exact ih hrest he

/-- Every retained entry is an untouched old entry, or the new pair
which then scores no worse than every displaced old entry sharing its
fingerprint. -/
theorem updateEntry_min_old (m : List (Doc × ℚ)) (p e : Doc × ℚ)
    (hpw : m.Pairwise (fun a b => fp a ≠ fp b)) (h : e ∈ updateEntry m p) :
    e ∈ m ∨ (e = p ∧ ∀ r ∈ m, fp r = fp p → e.2 ≤ r.2) := by
  induction m with
  | nil =>
    simp only [updateEntry, List.mem_singleton] at h
    exact Or.inr ⟨h, fun r hr => absurd hr (List.not_mem_nil r)⟩
  | cons q rest ih =>
    rw [List.pairwise_cons] at hpw
    obtain ⟨hq_rest, hrest⟩ := hpw
    rw [updateEntry] at h
    by_cases hq : fp q = fp p
    · rw [if_pos hq] at h
      rcases List.mem_cons.mp h with he | he
      · by_cases hlt : p.2 < q.2
        · rw [if_pos hlt] at he
          refine Or.inr ⟨he, ?_⟩
          intro r hr hrfp
          rcases List.mem_cons.mp hr with heq | hr2
          · rw [he, heq]
            exact le_of_lt hlt
          · exact absurd (hq.trans hrfp.symm) (hq_rest r hr2)
        · rw [if_neg hlt] at he
          exact Or.inl (by rw [he]; exact List.mem_cons_self q rest)
      · exact Or.inl (List.mem_cons_of_mem q he)
    · rw [if_neg hq] at h
      rcases List.mem_cons.mp h with he | he
      · exact Or.inl (by rw [he]; exact List.mem_cons_self q rest)
      · rcases ih hrest he with h2 | ⟨hep, hall⟩
        · exact Or.inl (List.mem_cons_of_mem q h2)
        · refine Or.inr ⟨hep, ?_⟩
          intro r hr hrfp
          rcases List.mem_cons.mp hr with heq | hr2
          · rw [heq] at hrfp
            exact absurd hrfp hq
          · exact hall r hr2 hrfp

/-- Every fingerprint present before the update, and the new pair's,
remains represented after it. -/
theorem updateEntry_covers (m : List (Doc × ℚ)) (p r : Doc × ℚ)
    (h : r ∈ m ∨ r = p) : ∃ e ∈ updateEntry m p, fp e = fp r := by
  induction m with
  | nil =>
    rcases h with h2 | h2
    · exact absurd h2 (List.not_mem_nil r)
    · exact ⟨p, by simp [updateEntry], by rw [h2]⟩
  | cons q rest ih =>
    rw [updateEntry]
    by_cases hq : fp q = fp p
    · rw [if_pos hq]
      have hh : fp (if p.2 < q.2 then p else q) = fp q := by
        split_ifs
        · exact hq.symm
        · rfl
      rcases h with h2 | h2
      · rcases List.mem_cons.mp h2 with heq | h3
        · exact ⟨_, List.mem_cons_self _ _, by rw [hh, heq]⟩
        · exact ⟨r, List.mem_cons_of_mem _ h3, rfl⟩
      · exact ⟨_, List.mem_cons_self _ _, by rw [hh, hq, h2]⟩
    · rw [if_neg hq]
      rcases h with h2 | h2
      · rcases List.mem_cons.mp h2 with heq | h3
        · exact ⟨q, List.mem_cons_self _ _, by rw [heq]⟩
        · obtain ⟨e, he, hfe⟩ := ih (Or.inl h3)
          exact ⟨e, List.mem_cons_of_mem _ he, hfe⟩
      · obtain ⟨e, he, hfe⟩ := ih (Or.inr h2)
        exact ⟨e, List.mem_cons_of_mem _ he, hfe⟩

/-- Invariants of the deduplication dict after the whole loop: pairwise
distinct fingerprints, entries drawn from the input, each entry of
minimal score among the input pairs sharing its fingerprint, and every
input fingerprint represented. -/
theorem dedupDocs_invariant (l : List (Doc × ℚ)) :
    (dedupDocs l).Pairwise (fun a b => fp a ≠ fp b) ∧
    (∀ e ∈ dedupDocs l, e ∈ l) ∧
    (∀ e ∈ dedupDocs l, ∀ r ∈ l, fp r = fp e → e.2 ≤ r.2) ∧
    (∀ r ∈ l, ∃ e ∈ dedupDocs l, fp e = fp r) := by
  have aux : ∀ ll m processed : List (Doc × ℚ),
      m.Pairwise (fun a b => fp a ≠ fp b) →
      (∀ e ∈ m, e ∈ processed) →
      (∀ e ∈ m, ∀ r ∈ processed, fp r = fp e → e.2 ≤ r.2) →
      (∀ r ∈ processed, ∃ e ∈ m, fp e = fp r) →
      (ll.foldl updateEntry m).Pairwise (fun a b => fp a ≠ fp b) ∧
      (∀ e ∈ ll.foldl updateEntry m, e ∈ processed ++ ll) ∧
      (∀ e ∈ ll.foldl updateEntry m, ∀ r ∈ processed ++ ll, fp r = fp e → e.2 ≤ r.2) ∧
      (∀ r ∈ processed ++ ll, ∃ e ∈ ll.foldl updateEntry m, fp e = fp r) := by
    intro ll
    induction ll with
    | nil =>
      intro m processed h1 h2 h3 h4
      rw [List.foldl_nil, List.append_nil]
      exact ⟨h1, h2, h3, h4⟩
    | cons p rest ih =>
      intro m processed h1 h2 h3 h4
      rw [List.foldl_cons]
      have step1 : (updateEntry m p).Pairwise (fun a b => fp a ≠ fp b) :=
        updateEntry_pairwise m p h1
      have step2 : ∀ e ∈ updateEntry m p, e ∈ processed ++ [p] := by
        intro e he
        rcases updateEntry_mem m p e he with h' | h'
        · exact List.mem_append_left _ (h2 e h')
        · rw [h']
          exact List.mem_append_right _ (List.mem_singleton_self p)
      have step3 : ∀ e ∈ updateEntry m p, ∀ r ∈ processed ++ [p],
          fp r = fp e → e.2 ≤ r.2 := by
        intro e he r hr hfp
        rcases List.mem_append.mp hr with hr1 | hr2
        · rcases updateEntry_min_old m p e h1 he with hm | ⟨hep, hall⟩
          · exact h3 e hm r hr1 hfp
          · obtain ⟨em, hem, hfem⟩ := h4 r hr1
            have h5 : e.2 ≤ em.2 := hall em hem (by rw [hfem, hfp, hep])
            exact le_trans h5 (h3 em hem r hr1 hfem.symm)
        · have hrp : r = p := List.mem_singleton.mp hr2
          rw [hrp]
          exact updateEntry_min_new m p e h1 he (by rw [← hfp, hrp])
      have step4 : ∀ r ∈ processed ++ [p], ∃ e ∈ updateEntry m p, fp e = fp r := by
        intro r hr
        rcases List.mem_append.mp hr with hr1 | hr2
        · obtain ⟨em, hem, hfem⟩ := h4 r hr1
          obtain ⟨e, he, hfe⟩ := updateEntry_covers m p em (Or.inl hem)
          exact ⟨e, he, hfe.trans hfem⟩
        · have hrp : r = p := List.mem_singleton.mp hr2
          obtain ⟨e, he, hfe⟩ := updateEntry_covers m p p (Or.inr rfl)
          exact ⟨e, he, by rw [hfe, hrp]⟩
      have happ : processed ++ p :: rest = (processed ++ [p]) ++ rest := by
        rw [List.append_assoc]
        rfl
      obtain ⟨g1, g2, g3, g4⟩ := ih (updateEntry m p) (processed ++ [p])
        step1 step2 step3 step4
      refine ⟨g1, ?_, ?_, ?_⟩
      · intro e he
        rw [happ]
        exact g2 e he
      · intro e he r hr hfp
        rw [happ] at hr
        exact g3 e he r hr hfp
      · intro r hr
        rw [happ] at hr
        exact g4 r hr
  exact aux l [] [] List.Pairwise.nil
    (fun e he => absurd he (List.not_mem_nil e))
    (fun e _ r hr => absurd hr (List.not_mem_nil r))
    (fun r hr => absurd hr (List.not_mem_nil r))

/-- C6: the consolidated DocumentSet of lines 1013-1021 has pairwise
distinct first-200-character fingerprints, is sorted ascending by
distance score, every retained entry comes from the pool with the
minimal score among the pool entries sharing its fingerprint, and every
pooled fingerprint stays represented — for every pool, including the
empty and singleton ones. -/
theorem c6_consolidation_invariants (pool : List (Doc × ℚ)) :
    (consolidate pool).Pairwise (fun a b => fp a ≠ fp b) ∧
    List.Sorted (fun a b : Doc × ℚ => a.2 ≤ b.2) (consolidate pool) ∧
    (∀ e ∈ consolidate pool, e ∈ pool ∧ ∀ r ∈ pool, fp r = fp e → e.2 ≤ r.2) ∧
    (∀ r ∈ pool, ∃ e ∈ consolidate pool, fp e = fp r) := by
  obtain ⟨g1, g2, g3, g4⟩ := dedupDocs_invariant pool
  have hperm : List.Perm (consolidate pool) (dedupDocs pool) :=
    List.perm_insertionSort _ _
  refine ⟨?_, ?_, ?_, ?_⟩
  · exact (List.Perm.pairwise_iff (fun h he => h he.symm) hperm).mpr g1
  · exact List.sorted_insertionSort _ _
  · intro e he
    have hm : e ∈ dedupDocs pool := hperm.mem_iff.mp he
    exact ⟨g2 e hm, fun r hr hfp => g3 e hm r hr hfp⟩
  · intro r hr
    obtain ⟨e, he, hfe⟩ := g4 r hr
    exact ⟨e, hperm.mem_iff.mpr he, hfe⟩
